import Mathlib

/-!
# Bootstrap of the namespace-configuration operator (main.go)

A shallow embedding of the process entry point: the package initialiser
`init`, the function `main` and the helper `checkNamespaceScope`.

Every call that leaves the file (scheme registration, flag parsing, manager
construction, discovery, controller registration, health wiring, the run
loop, the environment) is answered by a `World`: one field per call site.
A run of `main` performs each such call at most once, so a record of answers
describes every possible behaviour of the collaborators in one run.

Running the program against a world yields the ordered list of calls that were
made (with their answers) and the way the process ended.
-/

namespace NamespaceConfigOperator

/-! ## Values -/

/-- Go `error` values that are not nil, represented by their text. -/
abbrev Error := String

/-- The constant `AllowSystemNamespacesEnvVarKey` (main.go, line 45). -/
def AllowSystemNamespacesEnvVarKey : String := "ALLOW_SYSTEM_NAMESPACES"

/-- The type `schema.GroupVersionKind`. -/
structure GroupVersionKind where
  Group : String
  Version : String
  Kind : String
  deriving DecidableEq, Repr

/-- The three packages whose kinds `init` adds to the scheme. -/
inductive SchemePkg
  | clientgoscheme
  | redhatcopv1alpha1
  | userv1
  deriving DecidableEq, Repr

/-- The value returned by `mgr.GetEventRecorderFor(name)`. -/
structure EventRecorder where
  name : String
  deriving DecidableEq, Repr

/-- The value returned by `lockedresourcecontroller.NewEnforcingReconciler`.
`inst` numbers the calls of the constructor: two values with the same `inst`
come from the same call. `flag6` and `flag7` are the sixth and seventh
arguments of the call. -/
structure EnforcingReconciler where
  inst : Nat
  recorder : EventRecorder
  flag6 : Bool
  flag7 : Bool
  deriving DecidableEq, Repr

/-- The three reconciler structs of package `controllers`, with the fields
that `main` fills in. -/
inductive Reconciler
  | NamespaceConfigReconciler (engine : EnforcingReconciler) (log : List String)
      (AllowSystemNamespaces : Bool)
  | UserConfigReconciler (engine : EnforcingReconciler) (log : List String)
  | GroupConfigReconciler (engine : EnforcingReconciler) (log : List String)
  deriving DecidableEq, Repr

/-- The identity of a controller. -/
inductive Controller
  | NamespaceConfig
  | UserConfig
  | GroupConfig
  deriving DecidableEq, Repr

/-- The controller a reconciler value belongs to. -/
def Reconciler.controller : Reconciler → Controller
  | .NamespaceConfigReconciler _ _ _ => .NamespaceConfig
  | .UserConfigReconciler _ _ => .UserConfig
  | .GroupConfigReconciler _ _ => .GroupConfig

/-- The enforcing reconciler embedded in a reconciler value. -/
def Reconciler.engine : Reconciler → EnforcingReconciler
  | .NamespaceConfigReconciler e _ _ => e
  | .UserConfigReconciler e _ => e
  | .GroupConfigReconciler e _ => e

/-! ## The collaborators -/

/-- The answers of everything outside main.go, one field per call site. For a
call returning `error`, `none` is nil. -/
structure World where
  /-- The process environment: `none` for a variable that is not set. -/
  environ : String → Option String
  /-- Answer of `clientgoscheme.AddToScheme(scheme)`, line 54. -/
  addClientgo : Option Error
  /-- Answer of `redhatcopv1alpha1.AddToScheme(scheme)`, line 56. -/
  addRedhatcop : Option Error
  /-- Answer of `userv1.AddToScheme(scheme)`, line 57. -/
  addUserv1 : Option Error
  /-- Whether `flag.Parse()` ends the process itself (the command line set
  uses `flag.ExitOnError`), and with which status. -/
  flagParse : Option Nat
  /-- Whether `ctrl.GetConfigOrDie()` fails to load a configuration. -/
  getConfig : Option Error
  /-- Answer of `ctrl.NewManager`, line 78. -/
  newManager : Option Error
  /-- Answer of `SetupWithManager` of the NamespaceConfig reconciler, line 96. -/
  setupNamespaceConfig : Option Error
  /-- Answer of `discoveryclient.IsGVKDefined` for kind User, line 106. -/
  userDefined : Bool × Option Error
  /-- Answer of `SetupWithManager` of the UserConfig reconciler, line 116. -/
  setupUserConfig : Option Error
  /-- Answer of `discoveryclient.IsGVKDefined` for kind Group, line 127. -/
  groupDefined : Bool × Option Error
  /-- Answer of `SetupWithManager` of the GroupConfig reconciler, line 137. -/
  setupGroupConfig : Option Error
  /-- Answer of `mgr.AddHealthzCheck`, line 144. -/
  addHealthzCheck : Option Error
  /-- Answer of `mgr.AddReadyzCheck`, line 148. -/
  addReadyzCheck : Option Error
  /-- Answer of `mgr.Start`, line 154, once the run loop has ended. -/
  start : Option Error

/-- What a run does, in order. Each call carries its arguments and its answer. -/
inductive Event
  | addToScheme (pkg : SchemePkg) (err : Option Error)
  | flagParse
  | setLogger
  | getConfigOrDie (err : Option Error)
  | newManager (err : Option Error)
  | getEventRecorderFor (name : String)
  | newEnforcingReconciler (r : EnforcingReconciler)
  | getenv (key : String) (value : String)
  | setupWithManager (r : Reconciler) (err : Option Error)
  | isGVKDefined (gvk : GroupVersionKind) (ok : Bool) (err : Option Error)
  | addHealthzCheck (name : String) (err : Option Error)
  | addReadyzCheck (name : String) (err : Option Error)
  | logError (err : Error) (msg : String) (keysAndValues : List String)
  | logInfo (msg : String)
  | start (err : Option Error)
  deriving DecidableEq, Repr

/-! ## Processes -/

/-- The ways a Go process stops before `main` returns. -/
inductive Halt
  | exit (code : Nat)
  | panic (err : Error)
  deriving DecidableEq, Repr

/-- The state threaded through a run: the calls made so far and the number of
enforcing reconcilers constructed so far. -/
structure Sys where
  trace : List Event
  engines : Nat
  deriving Repr

/-- A piece of the program: it either yields a value or halts the process; the
state reached is kept in both cases. -/
def Proc (α : Type) : Type := Sys → Except Halt α × Sys

/-- Sequencing of statements: nothing runs after a halt. -/
def Proc.bind {α β : Type} (m : Proc α) (f : α → Proc β) : Proc β := fun s =>
  match m s with
  | (.ok a, s1) => f a s1
  | (.error h, s1) => (.error h, s1)

instance : Monad Proc where
  pure a := fun s => (.ok a, s)
  bind := Proc.bind

/-- Record one call. -/
def emit (e : Event) : Proc Unit := fun s =>
  (.ok (), { s with trace := s.trace ++ [e] })

/-- The call `os.Exit(code)`: it does not return. -/
def osExit {α : Type} (code : Nat) : Proc α := fun s => (.error (.exit code), s)

/-- The statement `panic(err)` with no recover in scope. -/
def goPanic {α : Type} (err : Error) : Proc α := fun s => (.error (.panic err), s)

/-- The call `setupLog.Error(err, msg, keysAndValues...)`. -/
def setupLogError (err : Error) (msg : String) (keysAndValues : List String) : Proc Unit :=
  emit (.logError err msg keysAndValues)

/-- The call `setupLog.Info(msg)`. -/
def setupLogInfo (msg : String) : Proc Unit :=
  emit (.logInfo msg)

/-! ## Library functions used by main.go -/

/-- The function `os.Getenv`: the value of the variable, empty when it is not
set. -/
def Getenv (w : World) (key : String) : Proc String := fun s =>
  let value := (w.environ key).getD ""
  (.ok value, { s with trace := s.trace ++ [.getenv key value] })

/-- The function `strconv.ParseBool` of the Go standard library: it accepts
1, t, T, TRUE, true, True, 0, f, F, FALSE, false, False and returns an error
for any other string. -/
def ParseBool (str : String) : Except Error Bool :=
  if str = "1" ∨ str = "t" ∨ str = "T" ∨ str = "TRUE" ∨ str = "true" ∨ str = "True" then
    .ok true
  else if str = "0" ∨ str = "f" ∨ str = "F" ∨ str = "FALSE" ∨ str = "false"
      ∨ str = "False" then
    .ok false
  else
    .error ("strconv.ParseBool: parsing " ++ str.quote ++ ": invalid syntax")

/-- The function `utilruntime.Must`: it panics on an error that is not nil. -/
def Must (err : Option Error) : Proc Unit :=
  match err with
  | some e => goPanic e
  | none => pure ()

/-- One `AddToScheme(scheme)` call. -/
def AddToScheme (pkg : SchemePkg) (answer : Option Error) : Proc (Option Error) := fun s =>
  (.ok answer, { s with trace := s.trace ++ [.addToScheme pkg answer] })

/-- The call `flag.Parse()`: on a bad command line it ends the process. -/
def flagParse (w : World) : Proc Unit := do
  emit .flagParse
  match w.flagParse with
  | some code => osExit code
  | none => pure ()

/-- The call `ctrl.GetConfigOrDie()`: it ends the process with status 1 when no
configuration can be loaded. -/
def GetConfigOrDie (w : World) : Proc Unit := do
  emit (.getConfigOrDie w.getConfig)
  match w.getConfig with
  | some _ => osExit 1
  | none => pure ()

/-- The call `ctrl.NewManager(...)`. -/
def NewManager (w : World) : Proc (Option Error) := do
  emit (.newManager w.newManager)
  pure w.newManager

/-- The call `mgr.GetEventRecorderFor(name)`. -/
def GetEventRecorderFor (name : String) : Proc EventRecorder := do
  emit (.getEventRecorderFor name)
  pure { name := name }

/-- The call `lockedresourcecontroller.NewEnforcingReconciler(...)`: every call
builds a new value. -/
def NewEnforcingReconciler (recorder : EventRecorder) (flag6 : Bool) (flag7 : Bool) :
    Proc EnforcingReconciler := fun s =>
  let r : EnforcingReconciler :=
    { inst := s.engines, recorder := recorder, flag6 := flag6, flag7 := flag7 }
  (.ok r, { trace := s.trace ++ [.newEnforcingReconciler r], engines := s.engines + 1 })

/-- The method `SetupWithManager(mgr)` of a reconciler. -/
def SetupWithManager (r : Reconciler) (answer : Option Error) : Proc (Option Error) := do
  emit (.setupWithManager r answer)
  pure answer

/-- The call `discoveryclient.IsGVKDefined(ctx, gvk)`. -/
def IsGVKDefined (gvk : GroupVersionKind) (answer : Bool × Option Error) :
    Proc (Bool × Option Error) := do
  emit (.isGVKDefined gvk answer.1 answer.2)
  pure answer

/-- The call `mgr.AddHealthzCheck(name, healthz.Ping)`. -/
def AddHealthzCheck (w : World) (name : String) : Proc (Option Error) := do
  emit (.addHealthzCheck name w.addHealthzCheck)
  pure w.addHealthzCheck

/-- The call `mgr.AddReadyzCheck(name, healthz.Ping)`. -/
def AddReadyzCheck (w : World) (name : String) : Proc (Option Error) := do
  emit (.addReadyzCheck name w.addReadyzCheck)
  pure w.addReadyzCheck

/-- The call `mgr.Start(ctrl.SetupSignalHandler())`; it returns when the run
loop has ended. -/
def Start (w : World) : Proc (Option Error) := do
  emit (.start w.start)
  pure w.start

/-! ## The code of main.go -/

/-- The function `checkNamespaceScope` (lines 160-170) on the value read from
the environment. `len(value)` is the length in bytes. -/
def checkNamespaceScopeOf (value : String) : Bool :=
  if value.utf8ByteSize = 0 then
    false
  else
    match ParseBool value with
    | .error _ => false
    | .ok res => res

/-- The function `checkNamespaceScope` (lines 160-170). -/
def checkNamespaceScope (w : World) : Proc Bool := do
  let value ← Getenv w AllowSystemNamespacesEnvVarKey
  pure (checkNamespaceScopeOf value)

/-- The function `init` (lines 53-59). -/
def init (w : World) : Proc Unit := do
  Must (← AddToScheme .clientgoscheme w.addClientgo)
  Must (← AddToScheme .redhatcopv1alpha1 w.addRedhatcop)
  Must (← AddToScheme .userv1 w.addUserv1)

/-- The statement `if err != nil { setupLog.Error(err, msg, keysAndValues...);
os.Exit(1) }`, which `main` repeats after every call that can fail. -/
def exitOnError (err : Option Error) (msg : String) (keysAndValues : List String) :
    Proc Unit :=
  match err with
  | some e => do
    setupLogError e msg keysAndValues
    osExit 1
  | none => pure ()

/-- The function `main` (lines 61-158). -/
def main (w : World) : Proc Unit := do
  flagParse w
  emit .setLogger
  GetConfigOrDie w
  let err ← NewManager w
  exitOnError err "unable to start manager" []
  let recorder ← GetEventRecorderFor "NamespaceConfig_controller"
  let engine ← NewEnforcingReconciler recorder true true
  let allow ← checkNamespaceScope w
  let err ← SetupWithManager
    (.NamespaceConfigReconciler engine ["controllers", "NamespaceConfig"] allow)
    w.setupNamespaceConfig
  exitOnError err "unable to create controller" ["controller", "NamespaceConfig"]
  let recorder ← GetEventRecorderFor "UserConfig_controller"
  let engine ← NewEnforcingReconciler recorder true true
  let userConfigController := Reconciler.UserConfigReconciler engine ["controllers", "UserConfig"]
  let probe ← IsGVKDefined
    { Group := "user.openshift.io", Version := "v1", Kind := "User" } w.userDefined
  (if !probe.1 || probe.2.isSome then
    exitOnError probe.2 "unable to set check wheter resource User.user.openshift.io exists" []
  else do
    let err ← SetupWithManager userConfigController w.setupUserConfig
    exitOnError err "unable to create controller" ["controller", "UserConfig"])
  let recorder ← GetEventRecorderFor "GroupConfig_controller"
  let engine ← NewEnforcingReconciler recorder true true
  let groupConfigController :=
    Reconciler.GroupConfigReconciler engine ["controllers", "GroupConfig"]
  let probe ← IsGVKDefined
    { Group := "user.openshift.io", Version := "v1", Kind := "Group" } w.groupDefined
  (if !probe.1 || probe.2.isSome then
    exitOnError probe.2 "unable to set check wheter resource Group.user.openshift.io exists" []
  else do
    let err ← SetupWithManager groupConfigController w.setupGroupConfig
    exitOnError err "unable to create controller" ["controller", "GroupConfig"])
  let err ← AddHealthzCheck w "health"
  exitOnError err "unable to set up health check" []
  let err ← AddReadyzCheck w "check"
  exitOnError err "unable to set up ready check" []
  setupLogInfo "starting manager"
  let err ← Start w
  exitOnError err "problem running manager" []

/-! ## Whole runs -/

/-- How a process ended. -/
inductive Outcome
  | returned
  | exited (code : Nat)
  | panicked (err : Error)
  deriving DecidableEq, Repr

/-- The exit status of the process: 0 when `main` returns, the argument of
`os.Exit`, and 2 for a panic that nothing recovers. -/
def Outcome.status : Outcome → Nat
  | .returned => 0
  | .exited code => code
  | .panicked _ => 2

/-- A finished run. -/
structure Run where
  trace : List Event
  outcome : Outcome
  deriving Repr

/-- The run of a process from the empty state. -/
def runProc (p : Proc Unit) : Run :=
  match p { trace := [], engines := 0 } with
  | (.ok _, s) => { trace := s.trace, outcome := .returned }
  | (.error (.exit code), s) => { trace := s.trace, outcome := .exited code }
  | (.error (.panic err), s) => { trace := s.trace, outcome := .panicked err }

/-- The run of `main` alone (the scheme having been built). -/
def runMain (w : World) : Run := runProc (main w)

/-- The run of the program: the Go runtime runs `init`, then `main`. -/
def program (w : World) : Run := runProc (do init w; main w)

/-! ## Vocabulary of the properties -/

/-- The controllers that `main` registers only when their kind is served. -/
inductive OptionalController
  | UserConfig
  | GroupConfig
  deriving DecidableEq, Repr

/-- The kind probed for an optional controller (lines 106-109 and 127-130). -/
def OptionalController.gvk : OptionalController → GroupVersionKind
  | .UserConfig => { Group := "user.openshift.io", Version := "v1", Kind := "User" }
  | .GroupConfig => { Group := "user.openshift.io", Version := "v1", Kind := "Group" }

/-- An optional controller as a controller. -/
def OptionalController.controller : OptionalController → Controller
  | .UserConfig => .UserConfig
  | .GroupConfig => .GroupConfig

/-- The value of ALLOW_SYSTEM_NAMESPACES that `os.Getenv` returns in a world. -/
def World.allowValue (w : World) : String :=
  (w.environ AllowSystemNamespacesEnvVarKey).getD ""

/-- The answer that `SetupWithManager` gives for each controller. -/
def World.setupAnswer (w : World) : Controller → Option Error
  | .NamespaceConfig => w.setupNamespaceConfig
  | .UserConfig => w.setupUserConfig
  | .GroupConfig => w.setupGroupConfig

/-- The calls of `SetupWithManager` for one controller. -/
def isSetupOf (c : Controller) : Event → Bool
  | .setupWithManager r _ => decide (r.controller = c)
  | _ => false

/-- The calls of `IsGVKDefined` for one kind. -/
def isProbeOf (gvk : GroupVersionKind) : Event → Bool
  | .isGVKDefined g _ _ => decide (g = gvk)
  | _ => false

/-- The calls of `mgr.Start`. -/
def isStart : Event → Bool
  | .start _ => true
  | _ => false

/-- The informational log lines. -/
def isInfo : Event → Bool
  | .logInfo _ => true
  | _ => false

/-- The log lines of either level. -/
def isLog : Event → Bool
  | .logInfo _ => true
  | .logError _ _ _ => true
  | _ => false

/-- The event that follows the first event satisfying `p`, if any. -/
def nextAfter (p : Event → Bool) : List Event → Option Event
  | [] => none
  | e :: t => if p e then t.head? else nextAfter p t

/-- The name under which `main` asks for the event recorder of a controller
(lines 93, 102 and 123). -/
def Controller.recorderName : Controller → String
  | .NamespaceConfig => "NamespaceConfig_controller"
  | .UserConfig => "UserConfig_controller"
  | .GroupConfig => "GroupConfig_controller"

/-- The name of a controller in the log lines (lines 97, 117 and 138). -/
def Controller.logName : Controller → String
  | .NamespaceConfig => "NamespaceConfig"
  | .UserConfig => "UserConfig"
  | .GroupConfig => "GroupConfig"

/-- The reconcilers handed to `SetupWithManager`, in order. -/
def setupReconcilers (t : List Event) : List Reconciler :=
  t.filterMap fun e =>
    match e with
    | .setupWithManager r _ => some r
    | _ => none

/-- The enforcing reconcilers built by `NewEnforcingReconciler`, in order. -/
def builtEngines (t : List Event) : List EnforcingReconciler :=
  t.filterMap fun e =>
    match e with
    | .newEnforcingReconciler r => some r
    | _ => none

/-- The calls of `SetupWithManager` for one controller that returned nil: the
controller is registered with the manager. -/
def isRegistrationOf (c : Controller) : Event → Bool
  | .setupWithManager r none => decide (r.controller = c)
  | _ => false

/-- The calls of `AddHealthzCheck` that returned nil. -/
def isHealthzAdded : Event → Bool
  | .addHealthzCheck _ none => true
  | _ => false

/-- The calls of `AddReadyzCheck` that returned nil. -/
def isReadyzAdded : Event → Bool
  | .addReadyzCheck _ none => true
  | _ => false

/-- The setup stages of `main`, in the order of the source. -/
inductive Stage
  | manager
  | namespaceConfig
  | userConfig
  | groupConfig
  | healthz
  | readyz
  | start
  deriving DecidableEq, Repr

/-- The position of a stage in the source. -/
def Stage.rank : Stage → Nat
  | .manager => 0
  | .namespaceConfig => 1
  | .userConfig => 2
  | .groupConfig => 3
  | .healthz => 4
  | .readyz => 5
  | .start => 6

/-- The stage a call belongs to; calls that belong to no stage have none. -/
def stageOf : Event → Option Stage
  | .newManager _ => some .manager
  | .setupWithManager r _ =>
    match r.controller with
    | .NamespaceConfig => some .namespaceConfig
    | .UserConfig => some .userConfig
    | .GroupConfig => some .groupConfig
  | .isGVKDefined gvk _ _ =>
    if gvk.Kind = "User" then some .userConfig
    else if gvk.Kind = "Group" then some .groupConfig
    else none
  | .addHealthzCheck _ _ => some .healthz
  | .addReadyzCheck _ _ => some .readyz
  | .start _ => some .start
  | _ => none

/-- The stages of a run, in the order in which they were entered. -/
def stagesOf (t : List Event) : List Stage :=
  (t.filterMap stageOf).dedup

/-- The places where setup can fail fatally. -/
inductive FailurePoint
  | manager
  | setup (c : Controller)
  | probe (c : OptionalController)
  | healthz
  | readyz
  deriving DecidableEq, Repr

/-- The message and the key-value pairs of the error line that the source
writes at each failure point (lines 88, 97, 112, 117, 133, 138, 145, 149). -/
def FailurePoint.line : FailurePoint → String × List String
  | .manager => ("unable to start manager", [])
  | .setup c => ("unable to create controller", ["controller", c.logName])
  | .probe .UserConfig =>
    ("unable to set check wheter resource User.user.openshift.io exists", [])
  | .probe .GroupConfig =>
    ("unable to set check wheter resource Group.user.openshift.io exists", [])
  | .healthz => ("unable to set up health check", [])
  | .readyz => ("unable to set up ready check", [])

/-- A call of a setup stage that returned an error: where it failed, and the
error. -/
def failureOf : Event → Option (FailurePoint × Error)
  | .newManager (some e) => some (.manager, e)
  | .setupWithManager r (some e) => some (.setup r.controller, e)
  | .isGVKDefined gvk _ (some e) =>
    if gvk.Kind = "User" then some (.probe .UserConfig, e)
    else if gvk.Kind = "Group" then some (.probe .GroupConfig, e)
    else none
  | .addHealthzCheck _ (some e) => some (.healthz, e)
  | .addReadyzCheck _ (some e) => some (.readyz, e)
  | _ => none

/-- The error line expected after a failed call. -/
def fatalLine (f : Event) : Option Event :=
  match failureOf f with
  | some (p, e) => some (.logError e p.line.1 p.line.2)
  | none => none

/-- The first call of the stage that follows the stage of an optional
controller (lines 123 and 144). -/
def OptionalController.nextCall (w : World) : OptionalController → Event
  | .UserConfig => .getEventRecorderFor "GroupConfig_controller"
  | .GroupConfig => .addHealthzCheck "health" w.addHealthzCheck

/-- The spellings that `strconv.ParseBool` reads as true. -/
def trueSpellings : List String := ["1", "t", "T", "TRUE", "true", "True"]

/-- A world in which every call succeeds and both kinds are served; the
environment is a parameter. -/
def healthyWorld (environ : String → Option String) : World :=
  { environ := environ, addClientgo := none, addRedhatcop := none, addUserv1 := none,
    flagParse := none, getConfig := none, newManager := none, setupNamespaceConfig := none,
    userDefined := (true, none), setupUserConfig := none, groupDefined := (true, none),
    setupGroupConfig := none, addHealthzCheck := none, addReadyzCheck := none, start := none }

/-- An environment in which only ALLOW_SYSTEM_NAMESPACES is set. -/
def allowEnv (value : String) : String → Option String :=
  fun key => if key = AllowSystemNamespacesEnvVarKey then some value else none

/-- The field `AllowSystemNamespaces` of a reconciler value; only the
NamespaceConfig reconciler has it. -/
def Reconciler.scope : Reconciler → Option Bool
  | .NamespaceConfigReconciler _ _ allow => some allow
  | _ => none

/-- The `AllowSystemNamespaces` values of the reconcilers handed to
`SetupWithManager`, in order. -/
def namespaceScopes (t : List Event) : List Bool :=
  (setupReconcilers t).filterMap Reconciler.scope

/-- The calls of `ctrl.NewManager`. -/
def isNewManager : Event → Bool
  | .newManager _ => true
  | _ => false

/-- The calls of a run made before `mgr.Start` is called. -/
def beforeStart (t : List Event) : List Event :=
  t.takeWhile fun e => !isStart e

/-- Whether the enforcing reconciler of a reconciler value was built with the
event recorder asked for under the name of its controller. -/
def Reconciler.hasOwnRecorder (r : Reconciler) : Bool :=
  r.engine.recorder.name == r.controller.recorderName

/-- The healthy world with ALLOW_SYSTEM_NAMESPACES set to "true" and the two
discovery probes answering as given. -/
def probeWorld (user group : Bool × Option Error) : World :=
  { environ := allowEnv "true", addClientgo := none, addRedhatcop := none, addUserv1 := none,
    flagParse := none, getConfig := none, newManager := none, setupNamespaceConfig := none,
    userDefined := user, setupUserConfig := none, groupDefined := group,
    setupGroupConfig := none, addHealthzCheck := none, addReadyzCheck := none, start := none }

/-! ## Case analysis -/

/-- Case analysis of a world along the control flow of `main`: one case for
every way a run can go. -/
theorem World.stageCases {P : World → Prop}
    (flagExit : ∀ env a1 a2 a3 fp gc nm sn uo ue su go ge sg hz rz st,
      P ⟨env, a1, a2, a3, some fp, gc, nm, sn, (uo, ue), su, (go, ge), sg, hz, rz, st⟩)
    (configDie : ∀ env a1 a2 a3 gc nm sn uo ue su go ge sg hz rz st,
      P ⟨env, a1, a2, a3, none, some gc, nm, sn, (uo, ue), su, (go, ge), sg, hz, rz, st⟩)
    (managerFail : ∀ env a1 a2 a3 nm sn uo ue su go ge sg hz rz st,
      P ⟨env, a1, a2, a3, none, none, some nm, sn, (uo, ue), su, (go, ge), sg, hz, rz, st⟩)
    (namespaceFail : ∀ env a1 a2 a3 sn uo ue su go ge sg hz rz st,
      P ⟨env, a1, a2, a3, none, none, none, some sn, (uo, ue), su, (go, ge), sg, hz, rz, st⟩)
    (userProbeFail : ∀ env a1 a2 a3 uo ue su go ge sg hz rz st,
      P ⟨env, a1, a2, a3, none, none, none, none, (uo, some ue), su, (go, ge), sg, hz, rz, st⟩)
    (userSetupFail : ∀ env a1 a2 a3 su go ge sg hz rz st,
      P ⟨env, a1, a2, a3, none, none, none, none, (true, none), some su, (go, ge), sg, hz, rz, st⟩)
    (userAbsent_groupProbeFail : ∀ env a1 a2 a3 su go ge sg hz rz st,
      P ⟨env, a1, a2, a3, none, none, none, none, (false, none), su, (go, some ge), sg, hz, rz, st⟩)
    (userAbsent_groupSetupFail : ∀ env a1 a2 a3 su sg hz rz st,
      P ⟨env, a1, a2, a3, none, none, none, none, (false, none), su, (true, none), some sg, hz, rz, st⟩)
    (userAbsent_groupAbsent_healthzFail : ∀ env a1 a2 a3 su sg hz rz st,
      P ⟨env, a1, a2, a3, none, none, none, none, (false, none), su, (false, none), sg, some hz, rz, st⟩)
    (userAbsent_groupAbsent_readyzFail : ∀ env a1 a2 a3 su sg rz st,
      P ⟨env, a1, a2, a3, none, none, none, none, (false, none), su, (false, none), sg, none, some rz, st⟩)
    (userAbsent_groupAbsent_startFail : ∀ env a1 a2 a3 su sg st,
      P ⟨env, a1, a2, a3, none, none, none, none, (false, none), su, (false, none), sg, none, none, some st⟩)
    (userAbsent_groupAbsent_startOk : ∀ env a1 a2 a3 su sg,
      P ⟨env, a1, a2, a3, none, none, none, none, (false, none), su, (false, none), sg, none, none, none⟩)
    (userAbsent_groupPresent_healthzFail : ∀ env a1 a2 a3 su hz rz st,
      P ⟨env, a1, a2, a3, none, none, none, none, (false, none), su, (true, none), none, some hz, rz, st⟩)
    (userAbsent_groupPresent_readyzFail : ∀ env a1 a2 a3 su rz st,
      P ⟨env, a1, a2, a3, none, none, none, none, (false, none), su, (true, none), none, none, some rz, st⟩)
    (userAbsent_groupPresent_startFail : ∀ env a1 a2 a3 su st,
      P ⟨env, a1, a2, a3, none, none, none, none, (false, none), su, (true, none), none, none, none, some st⟩)
    (userAbsent_groupPresent_startOk : ∀ env a1 a2 a3 su,
      P ⟨env, a1, a2, a3, none, none, none, none, (false, none), su, (true, none), none, none, none, none⟩)
    (userPresent_groupProbeFail : ∀ env a1 a2 a3 go ge sg hz rz st,
      P ⟨env, a1, a2, a3, none, none, none, none, (true, none), none, (go, some ge), sg, hz, rz, st⟩)
    (userPresent_groupSetupFail : ∀ env a1 a2 a3 sg hz rz st,
      P ⟨env, a1, a2, a3, none, none, none, none, (true, none), none, (true, none), some sg, hz, rz, st⟩)
    (userPresent_groupAbsent_healthzFail : ∀ env a1 a2 a3 sg hz rz st,
      P ⟨env, a1, a2, a3, none, none, none, none, (true, none), none, (false, none), sg, some hz, rz, st⟩)
    (userPresent_groupAbsent_readyzFail : ∀ env a1 a2 a3 sg rz st,
      P ⟨env, a1, a2, a3, none, none, none, none, (true, none), none, (false, none), sg, none, some rz, st⟩)
    (userPresent_groupAbsent_startFail : ∀ env a1 a2 a3 sg st,
      P ⟨env, a1, a2, a3, none, none, none, none, (true, none), none, (false, none), sg, none, none, some st⟩)
    (userPresent_groupAbsent_startOk : ∀ env a1 a2 a3 sg,
      P ⟨env, a1, a2, a3, none, none, none, none, (true, none), none, (false, none), sg, none, none, none⟩)
    (userPresent_groupPresent_healthzFail : ∀ env a1 a2 a3 hz rz st,
      P ⟨env, a1, a2, a3, none, none, none, none, (true, none), none, (true, none), none, some hz, rz, st⟩)
    (userPresent_groupPresent_readyzFail : ∀ env a1 a2 a3 rz st,
      P ⟨env, a1, a2, a3, none, none, none, none, (true, none), none, (true, none), none, none, some rz, st⟩)
    (userPresent_groupPresent_startFail : ∀ env a1 a2 a3 st,
      P ⟨env, a1, a2, a3, none, none, none, none, (true, none), none, (true, none), none, none, none, some st⟩)
    (userPresent_groupPresent_startOk : ∀ env a1 a2 a3,
      P ⟨env, a1, a2, a3, none, none, none, none, (true, none), none, (true, none), none, none, none, none⟩)
    (w : World) : P w := by
  rcases w with ⟨env, a1, a2, a3, fp, gc, nm, sn, ⟨uo, ue⟩, su, ⟨go, ge⟩, sg, hz, rz, st⟩
  rcases fp with _ | fp
  · rcases gc with _ | gc
    · rcases nm with _ | nm
      · rcases sn with _ | sn
        · rcases ue with _ | ue
          · cases uo
            · rcases ge with _ | ge
              · cases go
                · rcases hz with _ | hz
                  · rcases rz with _ | rz
                    · rcases st with _ | st
                      · exact userAbsent_groupAbsent_startOk ..
                      · exact userAbsent_groupAbsent_startFail ..
                    · exact userAbsent_groupAbsent_readyzFail ..
                  · exact userAbsent_groupAbsent_healthzFail ..
                · rcases sg with _ | sg
                  · rcases hz with _ | hz
                    · rcases rz with _ | rz
                      · rcases st with _ | st
                        · exact userAbsent_groupPresent_startOk ..
                        · exact userAbsent_groupPresent_startFail ..
                      · exact userAbsent_groupPresent_readyzFail ..
                    · exact userAbsent_groupPresent_healthzFail ..
                  · exact userAbsent_groupSetupFail ..
              · exact userAbsent_groupProbeFail ..
            · rcases su with _ | su
              · rcases ge with _ | ge
                · cases go
                  · rcases hz with _ | hz
                    · rcases rz with _ | rz
                      · rcases st with _ | st
                        · exact userPresent_groupAbsent_startOk ..
                        · exact userPresent_groupAbsent_startFail ..
                      · exact userPresent_groupAbsent_readyzFail ..
                    · exact userPresent_groupAbsent_healthzFail ..
                  · rcases sg with _ | sg
                    · rcases hz with _ | hz
                      · rcases rz with _ | rz
                        · rcases st with _ | st
                          · exact userPresent_groupPresent_startOk ..
                          · exact userPresent_groupPresent_startFail ..
                        · exact userPresent_groupPresent_readyzFail ..
                      · exact userPresent_groupPresent_healthzFail ..
                    · exact userPresent_groupSetupFail ..
                · exact userPresent_groupProbeFail ..
              · exact userSetupFail ..
          · exact userProbeFail ..
        · exact namespaceFail ..
      · exact managerFail ..
    · exact configDie ..
  · exact flagExit ..

/-! ## The scope policy -/

/-- The strings that `strconv.ParseBool` reads as true. -/
theorem ParseBool_true_iff (v : String) : ParseBool v = .ok true ↔ v ∈ trueSpellings := by
  unfold ParseBool trueSpellings
  split_ifs with h1 h2 <;> simp_all

/-- The scope check is true exactly on the true spellings. -/
theorem checkNamespaceScopeOf_eq_true_iff (v : String) :
    checkNamespaceScopeOf v = true ↔ v ∈ trueSpellings := by
  unfold checkNamespaceScopeOf
  split_ifs with h0
  · constructor
    · intro h; cases h
    · intro h
      simp only [trueSpellings, List.mem_cons, List.mem_singleton, List.not_mem_nil,
        or_false] at h
      rcases h with h | h | h | h | h | h <;> subst h <;> revert h0 <;> decide
  · rw [← ParseBool_true_iff]
    cases hp : ParseBool v with
    | error e => simp
    | ok b => cases b <;> simp

/-- What `checkNamespaceScope` returns, whatever the state it is called in. -/
theorem checkNamespaceScope_run (w : World) (s : Sys) :
    (checkNamespaceScope w s).1 = .ok (checkNamespaceScopeOf w.allowValue) := rfl

/-- C1: when ALLOW_SYSTEM_NAMESPACES is not set, is empty, or holds a value that
`strconv.ParseBool` rejects, `checkNamespaceScope` returns false. -/
theorem C1_bad_input_resolves_false (w : World) (s : Sys)
    (h : w.environ AllowSystemNamespacesEnvVarKey = none ∨
      w.environ AllowSystemNamespacesEnvVarKey = some "" ∨
      ∃ v e, w.environ AllowSystemNamespacesEnvVarKey = some v ∧ ParseBool v = .error e) :
    (checkNamespaceScope w s).1 = .ok false := by
  rw [checkNamespaceScope_run]
  congr 1
  have hempty : checkNamespaceScopeOf "" = false := by decide
  rcases h with h | h | ⟨v, e, h, hp⟩
  · simpa [World.allowValue, h] using hempty
  · simpa [World.allowValue, h] using hempty
  · simp [World.allowValue, h, checkNamespaceScopeOf, hp]

/-- C1 at the value "yes", which `strconv.ParseBool` rejects. -/
theorem C1_bad_input_resolves_false_witness :
    (checkNamespaceScope (healthyWorld (allowEnv "yes")) ⟨[], 0⟩).1 = .ok false :=
  C1_bad_input_resolves_false (healthyWorld (allowEnv "yes")) ⟨[], 0⟩
    (Or.inr (Or.inr ⟨"yes", _, by decide, rfl⟩))

/-- C10: `checkNamespaceScope` returns true exactly when the value of
ALLOW_SYSTEM_NAMESPACES is one of 1, t, T, TRUE, true, True; in particular it
returns false for the empty value, the false spellings and other casings or
padded values; and the result is a function of that one value. -/
theorem C10_scope_policy_characterised (w : World) (s : Sys) :
    (∃ b, (checkNamespaceScope w s).1 = .ok b ∧ (b = true ↔ w.allowValue ∈ trueSpellings)) ∧
    (["", "0", "f", "F", "FALSE", "false", "False", "tRuE", " true", "true ", "yes"].all
      fun v => ! checkNamespaceScopeOf v) = true ∧
    (trueSpellings.all checkNamespaceScopeOf) = true ∧
    (∀ (w2 : World) (s2 : Sys),
      w2.environ AllowSystemNamespacesEnvVarKey = w.environ AllowSystemNamespacesEnvVarKey →
      (checkNamespaceScope w2 s2).1 = (checkNamespaceScope w s).1) := by
  refine ⟨⟨_, checkNamespaceScope_run w s, checkNamespaceScopeOf_eq_true_iff _⟩, by decide,
    by decide, ?_⟩
  intro w2 s2 h
  simp [checkNamespaceScope_run, World.allowValue, h]

/-- C10 at two worlds that agree on the variable and differ elsewhere. -/
theorem C10_scope_policy_characterised_witness :
    (checkNamespaceScope { healthyWorld (allowEnv "T") with start := some "stopped" } ⟨[], 7⟩).1
      = (checkNamespaceScope (healthyWorld (allowEnv "T")) ⟨[], 0⟩).1 :=
  (C10_scope_policy_characterised (healthyWorld (allowEnv "T")) ⟨[], 0⟩).2.2.2
    { healthyWorld (allowEnv "T") with start := some "stopped" } ⟨[], 7⟩ rfl


/-! ## Runs of `main` -/

set_option maxHeartbeats 4000000

/-- C3: when the probe of an optional controller reports an error, whatever
the boolean, `main` logs the error and exits with status 1, and
`SetupWithManager` is never called for that controller. -/
theorem C3_probe_error_is_fatal (w : World) (c : OptionalController) (ok : Bool) (e : Error)
    (h : Event.isGVKDefined c.gvk ok (some e) ∈ (runMain w).trace) :
    (runMain w).outcome = .exited 1 ∧
    (runMain w).trace.filter (isSetupOf c.controller) = [] ∧
    (runMain w).trace.getLast? =
      some (.logError e (FailurePoint.probe c).line.1 (FailurePoint.probe c).line.2) := by
  revert h
  induction w using World.stageCases <;> cases c <;>
    simp [runMain, runProc, main, flagParse, GetConfigOrDie, NewManager, GetEventRecorderFor,
      NewEnforcingReconciler, checkNamespaceScope, Getenv, SetupWithManager, IsGVKDefined,
      AddHealthzCheck, AddReadyzCheck, Start, setupLogError, setupLogInfo, emit, osExit,
      exitOnError, bind, Proc.bind, pure, OptionalController.gvk,
      OptionalController.controller, isSetupOf, Reconciler.controller, FailurePoint.line] <;>
    (intros; simp_all)

/-- C3 at a world where the probe of User answers true together with an error. -/
theorem C3_probe_error_is_fatal_witness :
    (runMain (probeWorld (true, some "discovery failed") (true, none))).outcome = .exited 1 ∧
    (runMain (probeWorld (true, some "discovery failed") (true, none))).trace.filter
      (isSetupOf .UserConfig) = [] :=
  have h := C3_probe_error_is_fatal (probeWorld (true, some "discovery failed") (true, none))
    .UserConfig true "discovery failed"
    (by
      simp [probeWorld, OptionalController.gvk, runMain, runProc, main, flagParse,
        GetConfigOrDie, NewManager, GetEventRecorderFor, NewEnforcingReconciler,
        checkNamespaceScope, Getenv, SetupWithManager, IsGVKDefined, AddHealthzCheck,
        AddReadyzCheck, Start, setupLogError, setupLogInfo, emit, osExit, exitOnError, bind,
        Proc.bind, pure])
  ⟨h.1, h.2.1⟩

/-- The NamespaceConfig reconcilers that a run hands to `SetupWithManager` all
carry the value that `checkNamespaceScope` returns, and there is exactly one of
them once the manager has been constructed. -/
theorem namespaceScopes_runMain (w : World) :
    namespaceScopes (runMain w).trace =
      if w.flagParse.isNone && w.getConfig.isNone && w.newManager.isNone then
        [checkNamespaceScopeOf w.allowValue]
      else [] := by
  induction w using World.stageCases <;>
    simp [runMain, runProc, main, flagParse, GetConfigOrDie, NewManager, GetEventRecorderFor,
      NewEnforcingReconciler, checkNamespaceScope, Getenv, SetupWithManager, IsGVKDefined,
      AddHealthzCheck, AddReadyzCheck, Start, setupLogError, setupLogInfo, emit, osExit,
      exitOnError, bind, Proc.bind, pure, namespaceScopes, setupReconcilers,
      Reconciler.scope, World.allowValue]

/-- C2: the NamespaceConfig reconciler that `main` builds and registers has
AllowSystemNamespaces equal to the value `checkNamespaceScope` returns: once the
manager is constructed exactly one such reconciler is built, with that value;
the value is true when ALLOW_SYSTEM_NAMESPACES is "true" and false when the
variable is not set. -/
theorem C2_namespace_controller_gets_scope_policy (w : World) (s : Sys)
    (hflag : w.flagParse = none) (hconfig : w.getConfig = none)
    (hmanager : w.newManager = none) :
    ∃ allow, (checkNamespaceScope w s).1 = .ok allow ∧
      namespaceScopes (runMain w).trace = [allow] ∧
      (w.environ AllowSystemNamespacesEnvVarKey = some "true" → allow = true) ∧
      (w.environ AllowSystemNamespacesEnvVarKey = none → allow = false) := by
  refine ⟨_, checkNamespaceScope_run w s, ?_, ?_, ?_⟩
  · simp [namespaceScopes_runMain, hflag, hconfig, hmanager]
  · intro h
    have : checkNamespaceScopeOf "true" = true := by decide
    simpa [World.allowValue, h] using this
  · intro h
    have : checkNamespaceScopeOf "" = false := by decide
    simpa [World.allowValue, h] using this

/-- C2 with the variable set to "true": the reconciler is built with true. -/
theorem C2_namespace_controller_gets_scope_policy_witness :
    namespaceScopes (runMain (healthyWorld (allowEnv "true"))).trace = [true] := by
  obtain ⟨allow, _, h2, h3, _⟩ :=
    C2_namespace_controller_gets_scope_policy (healthyWorld (allowEnv "true")) ⟨[], 0⟩
      rfl rfl rfl
  rw [h2, h3 (by decide)]

/-- C4: when the probe of an optional controller answers (false, nil),
`SetupWithManager` is never called for that controller and the call that
follows the probe is the first call of the next stage, so the stage raises no
fatal exit; when this is the User probe and the remaining steps succeed, the
NamespaceConfig controller is registered and `mgr.Start` is called. -/
theorem C4_benign_absence_does_not_stop_startup (w : World) (c : OptionalController)
    (h : Event.isGVKDefined c.gvk false none ∈ (runMain w).trace) :
    (runMain w).trace.filter (isSetupOf c.controller) = [] ∧
    nextAfter (isProbeOf c.gvk) (runMain w).trace = some (c.nextCall w) ∧
    (c = .UserConfig → w.groupDefined.2 = none →
      (w.groupDefined.1 = true → w.setupGroupConfig = none) →
      w.addHealthzCheck = none → w.addReadyzCheck = none →
      (runMain w).trace.any (isRegistrationOf .NamespaceConfig) = true ∧
      (runMain w).trace.any isStart = true) := by
  revert h
  induction w using World.stageCases <;>
    simp [runMain, runProc, main, flagParse, GetConfigOrDie, NewManager, GetEventRecorderFor,
      NewEnforcingReconciler, checkNamespaceScope, Getenv, SetupWithManager, IsGVKDefined,
      AddHealthzCheck, AddReadyzCheck, Start, setupLogError, setupLogInfo, emit, osExit,
      exitOnError, bind, Proc.bind, pure] <;>
    cases c <;>
    simp [OptionalController.gvk, OptionalController.controller, OptionalController.nextCall,
      nextAfter, isProbeOf, isSetupOf, isRegistrationOf, isStart, Reconciler.controller]

/-- C4 at a world where User is not served and every other step succeeds. -/
theorem C4_benign_absence_does_not_stop_startup_witness :
    (runMain (probeWorld (false, none) (true, none))).trace.any
      (isRegistrationOf .NamespaceConfig) = true ∧
    (runMain (probeWorld (false, none) (true, none))).trace.any isStart = true :=
  (C4_benign_absence_does_not_stop_startup (probeWorld (false, none) (true, none)) .UserConfig
    (by
      simp [probeWorld, OptionalController.gvk, runMain, runProc, main, flagParse,
        GetConfigOrDie, NewManager, GetEventRecorderFor, NewEnforcingReconciler,
        checkNamespaceScope, Getenv, SetupWithManager, IsGVKDefined, AddHealthzCheck,
        AddReadyzCheck, Start, setupLogError, setupLogInfo, emit, osExit, exitOnError, bind,
        Proc.bind, pure])).2.2 rfl rfl (fun _ => rfl) rfl rfl

/-- C5: when the probe of an optional controller answers (true, nil) and its
`SetupWithManager` returns nil, the controller is registered exactly once, by
the only `SetupWithManager` call made for it; every reconciler handed to
`SetupWithManager` holds the recorder asked for under the name of its own
controller, these names are pairwise distinct, and the reconcilers hold
pairwise distinct instances built by `NewEnforcingReconciler`. -/
theorem C5_served_kind_registers_once (w : World) (c : OptionalController)
    (hprobe : Event.isGVKDefined c.gvk true none ∈ (runMain w).trace)
    (hsetup : w.setupAnswer c.controller = none) :
    (runMain w).trace.countP (isSetupOf c.controller) = 1 ∧
    (runMain w).trace.countP (isRegistrationOf c.controller) = 1 ∧
    (setupReconcilers (runMain w).trace).all Reconciler.hasOwnRecorder = true ∧
    Function.Injective Controller.recorderName ∧
    ((setupReconcilers (runMain w).trace).map fun r => r.engine.inst).Nodup ∧
    ((builtEngines (runMain w).trace).map fun r => r.inst).Nodup ∧
    (∀ r ∈ setupReconcilers (runMain w).trace, r.engine ∈ builtEngines (runMain w).trace) := by
  have hinj : Function.Injective Controller.recorderName := by
    intro a b
    cases a <;> cases b <;> simp [Controller.recorderName]
  revert hprobe hsetup
  induction w using World.stageCases <;>
    simp [runMain, runProc, main, flagParse, GetConfigOrDie, NewManager, GetEventRecorderFor,
      NewEnforcingReconciler, checkNamespaceScope, Getenv, SetupWithManager, IsGVKDefined,
      AddHealthzCheck, AddReadyzCheck, Start, setupLogError, setupLogInfo, emit, osExit,
      exitOnError, bind, Proc.bind, pure, hinj] <;>
    cases c <;>
    simp [OptionalController.gvk, OptionalController.controller, World.setupAnswer,
      isSetupOf, isRegistrationOf, Reconciler.controller, Reconciler.engine,
      Reconciler.hasOwnRecorder, Controller.recorderName, setupReconcilers, builtEngines]

/-- C5 at the healthy world, for the GroupConfig controller. -/
theorem C5_served_kind_registers_once_witness :
    (runMain (probeWorld (true, none) (true, none))).trace.countP
      (isRegistrationOf .GroupConfig) = 1 :=
  (C5_served_kind_registers_once (probeWorld (true, none) (true, none)) .GroupConfig
    (by
      simp [probeWorld, OptionalController.gvk, runMain, runProc, main, flagParse,
        GetConfigOrDie, NewManager, GetEventRecorderFor, NewEnforcingReconciler,
        checkNamespaceScope, Getenv, SetupWithManager, IsGVKDefined, AddHealthzCheck,
        AddReadyzCheck, Start, setupLogError, setupLogInfo, emit, osExit, exitOnError, bind,
        Proc.bind, pure])
    rfl).2.1

/-- C6: in a run in which `mgr.Start` is called, the calls made before it
include the registration of the NamespaceConfig controller, the registration of
every optional controller whose probe answered (true, nil), and the successful
`AddHealthzCheck` and `AddReadyzCheck`; the run goes through the seven stages
manager, NamespaceConfig, UserConfig, GroupConfig, healthz, readyz, Start in
that order, and never from a later stage back to an earlier one. -/
theorem C6_start_only_after_setup (w : World) (e : Option Error)
    (h : Event.start e ∈ (runMain w).trace) :
    (beforeStart (runMain w).trace).any (isRegistrationOf .NamespaceConfig) = true ∧
    (∀ c : OptionalController, Event.isGVKDefined c.gvk true none ∈ (runMain w).trace →
      (beforeStart (runMain w).trace).any (isRegistrationOf c.controller) = true) ∧
    (beforeStart (runMain w).trace).any isHealthzAdded = true ∧
    (beforeStart (runMain w).trace).any isReadyzAdded = true ∧
    stagesOf (runMain w).trace =
      [.manager, .namespaceConfig, .userConfig, .groupConfig, .healthz, .readyz, .start] ∧
    (((runMain w).trace.filterMap stageOf).map Stage.rank).Pairwise (fun a b => a ≤ b) := by
  have key : (((runMain w).trace.filterMap stageOf).map Stage.rank).Pairwise
        (fun a b => a ≤ b) ∧
      (Event.start e ∈ (runMain w).trace →
      (beforeStart (runMain w).trace).any (isRegistrationOf .NamespaceConfig) = true ∧
      (∀ c : OptionalController, Event.isGVKDefined c.gvk true none ∈ (runMain w).trace →
        (beforeStart (runMain w).trace).any (isRegistrationOf c.controller) = true) ∧
      (beforeStart (runMain w).trace).any isHealthzAdded = true ∧
      (beforeStart (runMain w).trace).any isReadyzAdded = true ∧
      stagesOf (runMain w).trace =
        [.manager, .namespaceConfig, .userConfig, .groupConfig, .healthz, .readyz, .start]) := by
    induction w using World.stageCases <;>
      simp [runMain, runProc, main, flagParse, GetConfigOrDie, NewManager, GetEventRecorderFor,
        NewEnforcingReconciler, checkNamespaceScope, Getenv, SetupWithManager, IsGVKDefined,
        AddHealthzCheck, AddReadyzCheck, Start, setupLogError, setupLogInfo, emit, osExit,
        exitOnError, bind, Proc.bind, pure] <;>
      simp [beforeStart, isStart, isRegistrationOf, isHealthzAdded, isReadyzAdded, stagesOf,
        stageOf, Stage.rank, Reconciler.controller] <;>
      rintro - (_ | _) <;>
      simp [OptionalController.gvk, OptionalController.controller]
  obtain ⟨h1, h2, h3, h4, h5⟩ := key.2 h
  exact ⟨h1, h2, h3, h4, h5, key.1⟩

/-- C6 at the healthy world: the run calls `mgr.Start` after the seven stages. -/
theorem C6_start_only_after_setup_witness :
    stagesOf (runMain (probeWorld (true, none) (true, none))).trace =
      [.manager, .namespaceConfig, .userConfig, .groupConfig, .healthz, .readyz, .start] :=
  (C6_start_only_after_setup (probeWorld (true, none) (true, none)) none
    (by
      simp [probeWorld, runMain, runProc, main, flagParse,
        GetConfigOrDie, NewManager, GetEventRecorderFor, NewEnforcingReconciler,
        checkNamespaceScope, Getenv, SetupWithManager, IsGVKDefined, AddHealthzCheck,
        AddReadyzCheck, Start, setupLogError, setupLogInfo, emit, osExit, exitOnError, bind,
        Proc.bind, pure])).2.2.2.2.1

/-- The error lines that the source writes at distinct failure points are
distinct. -/
theorem FailurePoint.line_injective : Function.Injective FailurePoint.line := by
  intro a b
  rcases a with _ | a | a | _ | _ <;> rcases b with _ | b | b | _ | _ <;>
    first
    | (cases a <;> cases b <;> simp [FailurePoint.line, Controller.logName])
    | (cases a <;> simp [FailurePoint.line, Controller.logName])
    | (cases b <;> simp [FailurePoint.line, Controller.logName])
    | simp [FailurePoint.line, Controller.logName]

/-- A failed call of a setup stage is the last call of the run but for its
error line, and the run ends with `os.Exit(1)` without calling `mgr.Start`. -/
theorem failed_call_ends_run (w : World) :
    ∀ f, f ∈ (runMain w).trace → (fatalLine f).isSome = true →
      (runMain w).outcome = .exited 1 ∧
      (runMain w).trace.getLast? = fatalLine f ∧
      (runMain w).trace.dropLast.getLast? = some f ∧
      (runMain w).trace.any isStart = false := by
  induction w using World.stageCases <;>
    simp [runMain, runProc, main, flagParse, GetConfigOrDie, NewManager, GetEventRecorderFor,
      NewEnforcingReconciler, checkNamespaceScope, Getenv, SetupWithManager, IsGVKDefined,
      AddHealthzCheck, AddReadyzCheck, Start, setupLogError, setupLogInfo, emit, osExit,
      exitOnError, bind, Proc.bind, pure] <;>
    simp [fatalLine, failureOf, FailurePoint.line, Controller.logName, Reconciler.controller,
      isStart]

/-- C7: when a call of a setup stage returns an error (manager construction,
a `SetupWithManager`, a probe, `AddHealthzCheck`, `AddReadyzCheck`), the run
ends with `os.Exit(1)`; the failed call is followed by the error line of its
stage and by nothing else, so no later stage runs and `mgr.Start` is never
called; and the error lines of distinct failure points are distinct. -/
theorem C7_fail_fast (w : World) (f l : Event)
    (hf : f ∈ (runMain w).trace) (hl : fatalLine f = some l) :
    (runMain w).outcome = .exited 1 ∧
    (runMain w).outcome.status ≠ 0 ∧
    (runMain w).trace.getLast? = some l ∧
    (runMain w).trace.dropLast.getLast? = some f ∧
    (runMain w).trace.any isStart = false ∧
    Function.Injective FailurePoint.line := by
  obtain ⟨h1, h2, h3, h4⟩ := failed_call_ends_run w f hf (by simp [hl])
  refine ⟨h1, ?_, ?_, h3, h4, FailurePoint.line_injective⟩
  · simp [h1, Outcome.status]
  · rw [h2, hl]

/-- C7 at a world where `AddReadyzCheck` fails after everything before it
succeeded. -/
theorem C7_fail_fast_witness :
    (runMain { probeWorld (true, none) (true, none) with
      addReadyzCheck := some "name in use" }).outcome = .exited 1 ∧
    (runMain { probeWorld (true, none) (true, none) with
      addReadyzCheck := some "name in use" }).trace.any isStart = false :=
  have h := C7_fail_fast
    { probeWorld (true, none) (true, none) with addReadyzCheck := some "name in use" }
    (.addReadyzCheck "check" (some "name in use"))
    (.logError "name in use" "unable to set up ready check" [])
    (by
      simp [probeWorld, runMain, runProc, main, flagParse,
        GetConfigOrDie, NewManager, GetEventRecorderFor, NewEnforcingReconciler,
        checkNamespaceScope, Getenv, SetupWithManager, IsGVKDefined, AddHealthzCheck,
        AddReadyzCheck, Start, setupLogError, setupLogInfo, emit, osExit, exitOnError, bind,
        Proc.bind, pure])
    (by simp [fatalLine, failureOf, FailurePoint.line])
  ⟨h.1, h.2.2.2.2.1⟩

/-- C8 does not hold: in the run where User is not served and everything else
succeeds, the UserConfig controller is skipped and the call that follows the
probe is the request for the next recorder; the only log line of the whole run
is "starting manager", and the log is the same as in the run where User is
served and nothing is skipped. -/
theorem C8_skip_is_not_logged :
    Event.isGVKDefined OptionalController.UserConfig.gvk false none ∈
      (runMain (probeWorld (false, none) (true, none))).trace ∧
    (runMain (probeWorld (false, none) (true, none))).trace.filter (isSetupOf .UserConfig) = [] ∧
    nextAfter (isProbeOf OptionalController.UserConfig.gvk)
      (runMain (probeWorld (false, none) (true, none))).trace =
        some (.getEventRecorderFor "GroupConfig_controller") ∧
    (runMain (probeWorld (false, none) (true, none))).trace.filter isLog =
      [.logInfo "starting manager"] ∧
    (runMain (probeWorld (false, none) (true, none))).trace.filter isLog =
      (runMain (probeWorld (true, none) (true, none))).trace.filter isLog := by
  simp [probeWorld, runMain, runProc, main, flagParse,
    GetConfigOrDie, NewManager, GetEventRecorderFor, NewEnforcingReconciler,
    checkNamespaceScope, Getenv, SetupWithManager, IsGVKDefined, AddHealthzCheck,
    AddReadyzCheck, Start, setupLogError, setupLogInfo, emit, osExit, exitOnError, bind,
    Proc.bind, pure, OptionalController.gvk]
  simp [nextAfter, isProbeOf, isSetupOf, isLog, Reconciler.controller]

/-- C8 as amended: when the probe of an optional controller answers
(false, nil), `SetupWithManager` is never called for that controller, the run
continues with the first call of the next stage, which is not a log line, and
the only informational message of the run is "starting manager". -/
theorem C8_skip_is_silent (w : World) (c : OptionalController)
    (h : Event.isGVKDefined c.gvk false none ∈ (runMain w).trace) :
    (runMain w).trace.filter (isSetupOf c.controller) = [] ∧
    nextAfter (isProbeOf c.gvk) (runMain w).trace = some (c.nextCall w) ∧
    isLog (c.nextCall w) = false ∧
    (∀ msg, Event.logInfo msg ∈ (runMain w).trace → msg = "starting manager") := by
  revert h
  induction w using World.stageCases <;>
    simp [runMain, runProc, main, flagParse, GetConfigOrDie, NewManager, GetEventRecorderFor,
      NewEnforcingReconciler, checkNamespaceScope, Getenv, SetupWithManager, IsGVKDefined,
      AddHealthzCheck, AddReadyzCheck, Start, setupLogError, setupLogInfo, emit, osExit,
      exitOnError, bind, Proc.bind, pure] <;>
    cases c <;>
    simp [OptionalController.gvk, OptionalController.controller, OptionalController.nextCall,
      nextAfter, isProbeOf, isSetupOf, isLog, Reconciler.controller]

/-- C8 as amended, at a world where Group is not served. -/
theorem C8_skip_is_silent_witness :
    nextAfter (isProbeOf OptionalController.GroupConfig.gvk)
      (runMain (probeWorld (true, none) (false, none))).trace =
        some (.addHealthzCheck "health" none) :=
  (C8_skip_is_silent (probeWorld (true, none) (false, none)) .GroupConfig
    (by
      simp [probeWorld, OptionalController.gvk, runMain, runProc, main, flagParse,
        GetConfigOrDie, NewManager, GetEventRecorderFor, NewEnforcingReconciler,
        checkNamespaceScope, Getenv, SetupWithManager, IsGVKDefined, AddHealthzCheck,
        AddReadyzCheck, Start, setupLogError, setupLogInfo, emit, osExit, exitOnError, bind,
        Proc.bind, pure])).2.1

/-! ## Runs of the program -/

/-- When the three scheme registrations succeed, no call in the run of the
program is a scheme registration that failed. -/
theorem program_of_init_ok (w : World) (h1 : w.addClientgo = none)
    (h2 : w.addRedhatcop = none) (h3 : w.addUserv1 = none) (pkg : SchemePkg) (e : Error) :
    Event.addToScheme pkg (some e) ∉ (program w).trace := by
  revert h1 h2 h3
  induction w using World.stageCases <;>
    (intro h1 h2 h3
     simp only at h1 h2 h3
     subst h1 h2 h3
     simp [program, init, Must, AddToScheme, goPanic, runProc, main, flagParse, GetConfigOrDie,
      NewManager, GetEventRecorderFor, NewEnforcingReconciler, checkNamespaceScope, Getenv,
      SetupWithManager, IsGVKDefined, AddHealthzCheck, AddReadyzCheck, Start, setupLogError,
      setupLogInfo, emit, osExit, exitOnError, bind, Proc.bind, pure])

/-- C9: when one of the three `AddToScheme` calls of `init` returns an error,
`utilruntime.Must` panics with that error, the process ends with status 2, the
failed call is the last call of the run, and `ctrl.NewManager` is never
called. -/
theorem C9_scheme_failure_aborts_before_manager (w : World) (pkg : SchemePkg) (e : Error)
    (h : Event.addToScheme pkg (some e) ∈ (program w).trace) :
    (program w).outcome = .panicked e ∧
    (program w).outcome.status ≠ 0 ∧
    (program w).trace.getLast? = some (.addToScheme pkg (some e)) ∧
    (program w).trace.any isNewManager = false := by
  obtain ⟨env, a1, a2, a3, fp, gc, nm, sn, ud, su, gd, sg, hz, rz, st⟩ := w
  rcases a1 with _ | a1
  · rcases a2 with _ | a2
    · rcases a3 with _ | a3
      · exact absurd h (program_of_init_ok _ rfl rfl rfl pkg e)
      · revert h
        simp [program, init, Must, AddToScheme, goPanic, runProc, bind, Proc.bind, pure,
          isNewManager, Outcome.status]
        rintro rfl rfl
        simp
    · revert h
      simp [program, init, Must, AddToScheme, goPanic, runProc, bind, Proc.bind, pure,
        isNewManager, Outcome.status]
      rintro rfl rfl
      simp
  · revert h
    simp [program, init, Must, AddToScheme, goPanic, runProc, bind, Proc.bind, pure,
      isNewManager, Outcome.status]
    rintro rfl rfl
    simp

/-- C9 at a world where the registration of the OpenShift user/v1 kinds fails. -/
theorem C9_scheme_failure_aborts_before_manager_witness :
    (program { probeWorld (true, none) (true, none) with
      addUserv1 := some "kind already registered" }).outcome.status ≠ 0 ∧
    (program { probeWorld (true, none) (true, none) with
      addUserv1 := some "kind already registered" }).trace.any isNewManager = false :=
  have h := C9_scheme_failure_aborts_before_manager
    { probeWorld (true, none) (true, none) with addUserv1 := some "kind already registered" }
    .userv1 "kind already registered"
    (by
      simp [probeWorld, program, init, Must, AddToScheme, goPanic, runProc, bind, Proc.bind,
        pure])
  ⟨h.2.1, h.2.2.2⟩

end NamespaceConfigOperator
